import Mathlib

/-!
A shallow embedding of `afids_regrf/apply.py` (functions `apply_afid_model` and
`apply_all_afid_models`), together with theorems settling the specification
claims about the per-landmark inference pipeline and the multi-landmark
aggregation.

Modelling conventions:
* floating-point coordinates and scores are modelled as rationals (`ℚ`);
* Python exceptions are modelled by `Except PyErr`;
* the external collaborators (`get_fid`, `gen_features`, `np.load`, the
  uninitialised row produced by `np.empty`) live in an `Env` record, and the
  model directory is an association list from file names to deserialised
  models, so that `joblib.load` becomes a lookup.
-/

/-- A 3-vector of rational coordinates (a voxel or world coordinate). -/
structure Vec3 where
  x : ℚ
  y : ℚ
  z : ℚ
deriving DecidableEq

/-- One row of a 4x4 affine matrix. -/
structure Vec4 where
  x : ℚ
  y : ℚ
  z : ℚ
  w : ℚ
deriving DecidableEq

/-- A 4x4 affine voxel-to-world transform, as returned by `gen_features`. -/
structure Affine4 where
  r0 : Vec4
  r1 : Vec4
  r2 : Vec4
  r3 : Vec4
deriving DecidableEq

/-- A feature-difference vector for one candidate voxel. -/
abbrev Feat := List ℚ

/-- The pair of offset arrays `(arr_0, arr_1)` from `feature_offsets.npz`. -/
abbrev FeatureOffsets := List ℚ × List ℚ

/-- The integer 3-vector obtained by `astype(int)` on one coordinate row. -/
abbrev IVec3 := ℤ × ℤ × ℤ

/-- Python exceptions observable from `apply.py`.  The first four
constructors are the Python built-in exception classes the code can actually
raise (`ValueError` from tuple unpacking and from `pandas` `idxmax`,
`FileNotFoundError` from `joblib.load`, `IndexError` from indexing,
`TypeError` from misuse of a duck-typed value).  The last three constructors
are modelled from the spec: they name the error taxonomy of spec section 7
(`EmptyCandidateSetError`, `ModelNotFoundError`, `MismatchedInputLengthError`);
no class of these names exists anywhere in the source, the constructors exist
only so that the spec claims about them can be stated. -/
inductive PyErr where
  | valueError (msg : String)
  | fileNotFoundError (fname : String)
  | indexError (msg : String)
  | typeError (msg : String)
  | emptyCandidateSetError
  | modelNotFoundError
  | mismatchedInputLengthError
deriving DecidableEq

instance {ε α : Type} [DecidableEq ε] [DecidableEq α] : DecidableEq (Except ε α) :=
  fun a b =>
    match a, b with
    | .ok x, .ok y =>
      if h : x = y then .isTrue (by rw [h]) else .isFalse (by simp [h])
    | .error e, .error f =>
      if h : e = f then .isTrue (by rw [h]) else .isFalse (by simp [h])
    | .ok _, .error _ => .isFalse (by simp)
    | .error _, .ok _ => .isFalse (by simp)

/-- A deserialised trained regression model: an opaque object exposing one
operation, `predict`, mapping a batch of feature vectors to scores. -/
structure RFModel where
  predict : List Feat → List ℚ

/-- One element of the stream produced by `it.chain.from_iterable` over the
per-subject `gen_features` triples: Python flattens each `(aff, diff, samples)`
tuple into three separate (heterogeneously typed) stream elements. -/
inductive GenItem where
  | aff (a : Affine4)
  | diff (d : List Feat)
  | samples (s : List Vec3)

/-- The external collaborators of `apply.py` (from `utils` and `numpy`),
specified only at their interface boundary: `get_fid` reads one seed
coordinate from an fcsv file, `gen_features` produces the affine transform,
feature-difference vectors and candidate voxels for one subject, `np_load`
loads the feature-offset archive, and `empty_row` is the arbitrary
uninitialised row produced by `np.empty((3,))` in `apply_all_afid_models`. -/
structure Env where
  get_fid : String → Nat → Vec3
  gen_features : String → Vec3 → FeatureOffsets → Nat → Nat → Nat → Bool →
    Affine4 × List Feat × List Vec3
  np_load : String → FeatureOffsets
  empty_row : Vec3

/-- Model of `it.chain.from_iterable` over the generator of per-subject
`gen_features(...)` triples: each triple is flattened into its three
components, in tuple order. -/
def chain_from_iterable (rs : List (Affine4 × List Feat × List Vec3)) :
    List GenItem :=
  rs.flatMap fun r => [.aff r.1, .diff r.2.1, .samples r.2.2]

/-- The tuple unpacking `aff, diff, samples = <iterable>` (line 30): Python
succeeds only when the iterable yields exactly three items, and raises
`ValueError` otherwise. -/
def unpack3 (l : List GenItem) : Except PyErr (GenItem × GenItem × GenItem) :=
  match l with
  | [a, b, c] => .ok (a, b, c)
  | [] => .error (.valueError "not enough values to unpack (expected 3, got 0)")
  | [_] => .error (.valueError "not enough values to unpack (expected 3, got 1)")
  | [_, _] => .error (.valueError "not enough values to unpack (expected 3, got 2)")
  | _ :: _ :: _ :: _ :: _ => .error (.valueError "too many values to unpack (expected 3)")

/-- Using the first unpacked item as an affine transform (duck typing). -/
def getAff : GenItem → Except PyErr Affine4
  | .aff a => .ok a
  | _ => .error (.typeError "expected an affine transform")

/-- Using the second unpacked item as a feature matrix (duck typing). -/
def getDiff : GenItem → Except PyErr (List Feat)
  | .diff d => .ok d
  | _ => .error (.typeError "expected a feature matrix")

/-- Using the third unpacked item as a candidate-voxel list (duck typing). -/
def getSamples : GenItem → Except PyErr (List Vec3)
  | .samples s => .ok s
  | _ => .error (.typeError "expected a voxel array")

/-- Model of `str(afid_num).zfill(2)`. -/
def zfill2 (n : Nat) : String :=
  if n < 10 then "0" ++ toString n else toString n

/-- The model filename template of line 45:
`afid-NN_desc-rf_sampleRate-isoRvox_model.joblib`, where `NN` is the
zero-padded value of the `afid_num` argument and `R` the value of the
`sampling_rate` argument of `apply_afid_model`. -/
def model_fname (afid_num sampling_rate : Nat) : String :=
  "afid-" ++ zfill2 afid_num ++ "_desc-rf_sampleRate-iso" ++
    toString sampling_rate ++ "vox_model.joblib"

/-- Model of `joblib.load(Path(model_dir_path) / model_fname)` (line 46): the model
directory is modelled by its contents, an association list from file name to
deserialised model; a missing file raises the Python built-in
`FileNotFoundError`. -/
def joblib_load (model_dir : List (String × RFModel)) (fname : String) :
    Except PyErr RFModel :=
  match model_dir.lookup fname with
  | some m => .ok m
  | none => .error (.fileNotFoundError fname)

/-- Tail of `pandas` `Series.idxmax`: scan the remaining scores, replacing the
current best index only on a strictly greater score, so the first occurrence
of the maximum wins. -/
def idxmax_go (bi : Nat) (b : ℚ) (i : Nat) : List ℚ → Nat
  | [] => bi
  | q :: qs => if b < q then idxmax_go i q (i + 1) qs else idxmax_go bi b (i + 1) qs

/-- Model of `pd.DataFrame(dist_predict)[0].idxmax()` (lines 50-52) over a default
integer index: the positional index of the first occurrence of the maximum
score; on an empty series `pandas` raises `ValueError`. -/
def idxmax : List ℚ → Except PyErr Nat
  | [] => .error (.valueError "attempt to get argmax of an empty sequence")
  | q :: qs => .ok (idxmax_go 0 q 1 qs)

/-- Model of `samples[idx]` (line 55/57): Python indexing, raising `IndexError` when
out of range. -/
def pyGet (l : List Vec3) (i : Nat) : Except PyErr Vec3 :=
  match l[i]? with
  | some v => .ok v
  | none => .error (.indexError "index out of range")

/-- Line 57: `aff[:3, :3].dot(samples[idx]) + aff[:3, 3]` — the upper-left
3x3 block of the affine applied to the voxel, plus the first three entries of
the last column. -/
def apply_affine (T : Affine4) (v : Vec3) : Vec3 :=
  { x := T.r0.x * v.x + T.r0.y * v.y + T.r0.z * v.z + T.r0.w
  , y := T.r1.x * v.x + T.r1.y * v.y + T.r1.z * v.z + T.r1.w
  , z := T.r2.x * v.x + T.r2.y * v.y + T.r2.z * v.z + T.r2.w }

/-- Modelled from the spec (section 4.1 step 6): the back-projection
`world = rotation · voxel + translation`, where `rotation` is the transform's
3x3 upper-left block and `translation` is its last column's first three
entries.  Used only to compare the spec's wording with the source formula
`apply_affine`. -/
def spec_back_project (T : Affine4) (v : Vec3) : Vec3 :=
  { x := (T.r0.x * v.x + T.r0.y * v.y + T.r0.z * v.z) + T.r0.w
  , y := (T.r1.x * v.x + T.r1.y * v.y + T.r1.z * v.z) + T.r1.w
  , z := (T.r2.x * v.x + T.r2.y * v.y + T.r2.z * v.z) + T.r2.w }

/-- Embedding of `apply_afid_model` (lines 19-59).  The zipped subject/fcsv pairs are fed
through `gen_features`; `it.chain.from_iterable` flattens the resulting
triples and the three names `aff, diff, samples` are unpacked from that flat
stream; the model named by `model_fname` is loaded from the directory
contents; the scores of `predict` are reduced by `idxmax`; and the winning
sample is back-projected through the affine transform. -/
def apply_afid_model (env : Env) (afid_num : Nat)
    (subject_paths fcsv_paths : List String)
    (model_dir : List (String × RFModel))
    (feature_offsets : FeatureOffsets)
    (padding sampling_rate size : Nat) : Except PyErr Vec3 := do
  let results := (subject_paths.zip fcsv_paths).map fun p =>
    env.gen_features p.1 (env.get_fid p.2 (afid_num - 1)) feature_offsets
      padding sampling_rate size true
  let (i0, i1, i2) ← unpack3 (chain_from_iterable results)
  let aff ← getAff i0
  let diff ← getDiff i1
  let samples ← getSamples i2
  let regr_rf ← joblib_load model_dir (model_fname afid_num sampling_rate)
  let dist_predict := regr_rf.predict diff
  let idx ← idxmax dist_predict
  let smp ← pyGet samples idx
  return apply_affine aff smp

/-- The `for afid_num in range(1, 33)` loop of lines 75-86: starting from the
accumulator rows (initially the single uninitialised `np.empty` row), each
landmark's coordinate is appended by `np.vstack`; the first exception aborts
the loop. -/
def vstack_loop (loc : Nat → Except PyErr Vec3) (acc : List Vec3) :
    List Nat → Except PyErr (List Vec3)
  | [] => .ok acc
  | n :: ns =>
    match loc n with
    | .ok c => vstack_loop loc (acc ++ [c]) ns
    | .error e => .error e

/-- Model of `astype(int)` on one coordinate component (line 88): the C-style
float-to-int conversion, which truncates toward zero.  On an exact rational
this is the truncated quotient of numerator by denominator. -/
def astype_int (q : ℚ) : ℤ :=
  q.num.tdiv q.den

/-- Model of `astype(int)` on one 3-vector row of the stacked coordinate table. -/
def astype_int3 (v : Vec3) : IVec3 :=
  (astype_int v.x, astype_int v.y, astype_int v.z)

/-- Embedding of `apply_all_afid_models` (lines 62-88).  The feature-offset archive is
loaded once; the loop body calls `apply_afid_model` with the positional
arguments `padding, size, sampling_rate` (lines 82-84), which land in the
parameters `padding, sampling_rate, size` of `apply_afid_model` — `size` and
`sampling_rate` swapped relative to the parameter names.  The returned list
is the integer table handed to the external writer `afids_to_fcsv` on
line 88 (`all_afids_coords[1:].astype(int)`, dropping the `np.empty` row);
an exception propagates instead and nothing is handed to the writer. -/
def apply_all_afid_models (env : Env) (subject_paths fcsv_paths : List String)
    (feature_offsets_path : String) (model_dir : List (String × RFModel))
    (padding size sampling_rate : Nat) : Except PyErr (List IVec3) := do
  let feature_offsets := env.np_load feature_offsets_path
  let all_afids_coords ← vstack_loop
    (fun afid_num => apply_afid_model env afid_num subject_paths fcsv_paths
      model_dir feature_offsets padding size sampling_rate)
    [env.empty_row] (List.range' 1 32)
  return ((all_afids_coords.drop 1).map astype_int3)

/-- The identity 4x4 affine transform. -/
def idAffine : Affine4 :=
  ⟨⟨1, 0, 0, 0⟩, ⟨0, 1, 0, 0⟩, ⟨0, 0, 1, 0⟩, ⟨0, 0, 0, 1⟩⟩

/-- A concrete environment realising the spec's end-to-end scenario: every
subject yields three candidates at voxels (1,1,1), (2,2,2), (3,3,3) under the
identity affine transform. -/
def env_std : Env :=
  { get_fid := fun _ _ => ⟨0, 0, 0⟩
  , gen_features := fun _ _ _ _ _ _ _ =>
      (idAffine, [[1], [2], [3]], [⟨1, 1, 1⟩, ⟨2, 2, 2⟩, ⟨3, 3, 3⟩])
  , np_load := fun _ => ([], [])
  , empty_row := ⟨0, 0, 0⟩ }

/-- A concrete trained model predicting the scores 0.1, 0.9, 0.4 for the
three candidates of `env_std`. -/
def model_std : RFModel :=
  ⟨fun _ => [1/10, 9/10, 4/10]⟩

/-- A model directory containing the landmark-1 model for sampling rate 5. -/
def dir_std : List (String × RFModel) :=
  [(model_fname 1 5, model_std)]

/-- The spec's first-occurrence argmax: index `i` holds the maximum of the
list and every strictly earlier entry is strictly below it. -/
def is_first_argmax (l : List ℚ) (i : Nat) : Prop :=
  ∃ m : ℚ, l[i]? = some m ∧ (∀ (j : Nat) (q : ℚ), l[j]? = some q → q ≤ m) ∧
    ∀ (j : Nat) (q : ℚ), j < i → l[j]? = some q → q < m

/-- Unpacking a stream of at least four items raises the Python
`ValueError` for over-long unpacking. -/
theorem unpack3_cons4 (a b c d : GenItem) (t : List GenItem) :
    unpack3 (a :: b :: c :: d :: t) =
      .error (.valueError "too many values to unpack (expected 3)") := rfl

/-- With exactly one zipped (subject, fcsv) pair, `apply_afid_model` reduces
to the load / predict / argmax / back-project chain over that subject's
`gen_features` output. -/
theorem apply_afid_model_single_eq (env : Env) (afid_num : Nat)
    (subject_paths fcsv_paths : List String) (s f : String)
    (model_dir : List (String × RFModel)) (offs : FeatureOffsets)
    (padding sampling_rate size : Nat)
    (aff : Affine4) (diff : List Feat) (samples : List Vec3)
    (hzip : subject_paths.zip fcsv_paths = [(s, f)])
    (hgen : env.gen_features s (env.get_fid f (afid_num - 1)) offs padding
      sampling_rate size true = (aff, diff, samples)) :
    apply_afid_model env afid_num subject_paths fcsv_paths model_dir offs
        padding sampling_rate size =
      Except.bind (joblib_load model_dir (model_fname afid_num sampling_rate))
        fun regr_rf =>
          Except.bind (idxmax (regr_rf.predict diff)) fun idx =>
            Except.bind (pyGet samples idx) fun smp =>
              .ok (apply_affine aff smp) := by
  unfold apply_afid_model
  rw [hzip]
  simp only [List.map_cons, List.map_nil]
  rw [hgen]
  rfl

/-- With one zipped pair and a missing model file, `apply_afid_model` fails
with the generic Python `FileNotFoundError` raised by `joblib.load`. -/
theorem apply_afid_model_lookup_none (env : Env) (afid_num : Nat)
    (subject_paths fcsv_paths : List String)
    (model_dir : List (String × RFModel)) (offs : FeatureOffsets)
    (padding sampling_rate size : Nat)
    (hzip : ∃ s f, subject_paths.zip fcsv_paths = [(s, f)])
    (hnone : model_dir.lookup (model_fname afid_num sampling_rate) = none) :
    apply_afid_model env afid_num subject_paths fcsv_paths model_dir offs
        padding sampling_rate size =
      .error (.fileNotFoundError (model_fname afid_num sampling_rate)) := by
  obtain ⟨s, f, hzip⟩ := hzip
  rw [apply_afid_model_single_eq env afid_num subject_paths fcsv_paths s f
    model_dir offs padding sampling_rate size _ _ _ hzip rfl]
  simp [joblib_load, hnone, Except.bind]

/-- Invariant of the `idxmax` scan: if `bi` is the first argmax of the prefix
of `l` before position `i` (with value `b`) and `rest` is what remains of `l`
from position `i`, then the scan returns a first argmax of all of `l`. -/
theorem idxmax_go_inv (l : List ℚ) (rest : List ℚ) :
    ∀ (i bi : Nat) (b : ℚ),
      l.drop i = rest → l[bi]? = some b → bi < i →
      (∀ (j : Nat) (q : ℚ), j < i → l[j]? = some q → q ≤ b) →
      (∀ (j : Nat) (q : ℚ), j < bi → l[j]? = some q → q < b) →
      is_first_argmax l (idxmax_go bi b i rest) := by
  induction rest with
  | nil =>
    intro i bi b hdrop hget hbi hmax hstrict
    refine ⟨b, hget, fun j q hj => ?_, hstrict⟩
    have hjlen : j < l.length := by
      by_contra hge
      rw [List.getElem?_eq_none (Nat.le_of_not_lt hge)] at hj
      exact Option.noConfusion hj
    have hilen : l.length ≤ i := by
      have hlen := congrArg List.length hdrop
      simp only [List.length_drop, List.length_nil] at hlen
      omega
    exact hmax j q (by omega) hj
  | cons q qs ih =>
    intro i bi b hdrop hget hbi hmax hstrict
    have hqi : l[i]? = some q := by
      have h0 : (l.drop i)[0]? = some q := by rw [hdrop]; simp
      rwa [List.getElem?_drop, Nat.add_zero] at h0
    have hdrop' : l.drop (i + 1) = qs := by
      have h1 : l.drop (i + 1) = (l.drop i).drop 1 := by
        rw [List.drop_drop, Nat.add_comm]
      rw [h1, hdrop, List.drop_one, List.tail_cons]
    by_cases hlt : b < q
    · have hres := ih (i + 1) i q hdrop' hqi (Nat.lt_succ_self i)
        (fun j p hj hp => by
          rcases Nat.lt_succ_iff_lt_or_eq.mp hj with hj' | hj'
          · exact le_of_lt (lt_of_le_of_lt (hmax j p hj' hp) hlt)
          · subst hj'
            rw [hqi] at hp
            exact le_of_eq (Option.some.inj hp).symm)
        (fun j p hj hp => lt_of_le_of_lt (hmax j p hj hp) hlt)
      simpa [idxmax_go, hlt] using hres
    · have hres := ih (i + 1) bi b hdrop' hget (Nat.lt_succ_of_lt hbi)
        (fun j p hj hp => by
          rcases Nat.lt_succ_iff_lt_or_eq.mp hj with hj' | hj'
          · exact hmax j p hj' hp
          · subst hj'
            rw [hqi] at hp
            rw [← Option.some.inj hp]
            exact le_of_not_lt hlt)
        hstrict
      simpa [idxmax_go, hlt] using hres

/-- A successful `idxmax` returns the positional index of the first
occurrence of the maximum score. -/
theorem idxmax_ok_spec (l : List ℚ) (i : Nat) (h : idxmax l = .ok i) :
    is_first_argmax l i := by
  cases l with
  | nil => exact Except.noConfusion h
  | cons q qs =>
    have hi : idxmax_go 0 q 1 qs = i := by
      simpa [idxmax] using h
    rw [← hi]
    exact idxmax_go_inv (q :: qs) qs 1 0 q rfl (by simp) Nat.one_pos
      (fun j p hj hp => by
        interval_cases j
        simp only [List.getElem?_cons_zero, Option.some.injEq] at hp
        exact le_of_eq hp.symm)
      (fun j p hj hp => absurd hj (Nat.not_lt_zero j))

/-- C2: a successful run of `apply_afid_model` selects, with `idxmax`, the
index of the maximum predicted score (first occurrence on ties), and the
returned coordinate is computed from exactly that candidate's voxel
coordinate `samples[idx]`. -/
theorem apply_afid_model_selects_first_argmax (env : Env) (afid_num : Nat)
    (subject_paths fcsv_paths : List String) (s f : String)
    (model_dir : List (String × RFModel)) (offs : FeatureOffsets)
    (padding sampling_rate size : Nat)
    (aff : Affine4) (diff : List Feat) (samples : List Vec3)
    (m : RFModel) (i : Nat)
    (hzip : subject_paths.zip fcsv_paths = [(s, f)])
    (hgen : env.gen_features s (env.get_fid f (afid_num - 1)) offs padding
      sampling_rate size true = (aff, diff, samples))
    (hload : model_dir.lookup (model_fname afid_num sampling_rate) = some m)
    (hidx : idxmax (m.predict diff) = .ok i) :
    is_first_argmax (m.predict diff) i ∧
      ∀ smp, samples[i]? = some smp →
        apply_afid_model env afid_num subject_paths fcsv_paths model_dir offs
          padding sampling_rate size = .ok (apply_affine aff smp) := by
  refine ⟨idxmax_ok_spec _ _ hidx, fun smp hsmp => ?_⟩
  rw [apply_afid_model_single_eq env afid_num subject_paths fcsv_paths s f
    model_dir offs padding sampling_rate size aff diff samples hzip hgen]
  simp [joblib_load, hload, hidx, pyGet, hsmp, Except.bind]

/-- Witness for C2 at the concrete standard environment: the unique maximum
0.9 sits at index 1 and the locator returns the back-projection of the
candidate at index 1. -/
theorem apply_afid_model_selects_first_argmax_witness :
    (["sub-01.nii"].zip ["sub-01.fcsv"] = [("sub-01.nii", "sub-01.fcsv")] ∧
      idxmax (model_std.predict [[1], [2], [3]]) = .ok 1) ∧
    (is_first_argmax (model_std.predict [[1], [2], [3]]) 1 ∧
      ∀ smp, ([⟨1, 1, 1⟩, ⟨2, 2, 2⟩, ⟨3, 3, 3⟩] : List Vec3)[1]? = some smp →
        apply_afid_model env_std 1 ["sub-01.nii"] ["sub-01.fcsv"] dir_std
          ([], []) 0 5 1 = .ok (apply_affine idAffine smp)) := by
  refine ⟨⟨rfl, by norm_num [model_std, idxmax, idxmax_go]⟩, ?_⟩
  exact apply_afid_model_selects_first_argmax env_std 1 ["sub-01.nii"]
    ["sub-01.fcsv"] "sub-01.nii" "sub-01.fcsv" dir_std ([], []) 0 5 1
    idAffine [[1], [2], [3]] [⟨1, 1, 1⟩, ⟨2, 2, 2⟩, ⟨3, 3, 3⟩] model_std 1
    rfl rfl rfl (by norm_num [model_std, idxmax, idxmax_go])

/-- C3: the source back-projection formula agrees everywhere with the spec's
`rotation · voxel + translation` (rotation the upper-left 3x3 block,
translation the first three entries of the last column), and a successful
run returns that back-projection of the winning candidate through the affine
transform returned by `gen_features` for the pair that produced it. -/
theorem apply_afid_model_back_projection (env : Env) (afid_num : Nat)
    (subject_paths fcsv_paths : List String) (s f : String)
    (model_dir : List (String × RFModel)) (offs : FeatureOffsets)
    (padding sampling_rate size : Nat)
    (aff : Affine4) (diff : List Feat) (samples : List Vec3)
    (m : RFModel) (i : Nat) (smp : Vec3)
    (hzip : subject_paths.zip fcsv_paths = [(s, f)])
    (hgen : env.gen_features s (env.get_fid f (afid_num - 1)) offs padding
      sampling_rate size true = (aff, diff, samples))
    (hload : model_dir.lookup (model_fname afid_num sampling_rate) = some m)
    (hidx : idxmax (m.predict diff) = .ok i)
    (hsmp : samples[i]? = some smp) :
    apply_afid_model env afid_num subject_paths fcsv_paths model_dir offs
        padding sampling_rate size = .ok (spec_back_project aff smp) ∧
      ∀ T w, apply_affine T w = spec_back_project T w := by
  have heq : ∀ T w, apply_affine T w = spec_back_project T w := by
    intro T w
    simp [apply_affine, spec_back_project]
  refine ⟨?_, heq⟩
  rw [apply_afid_model_single_eq env afid_num subject_paths fcsv_paths s f
    model_dir offs padding sampling_rate size aff diff samples hzip hgen]
  simp [joblib_load, hload, hidx, pyGet, hsmp, Except.bind, heq]

/-- Witness for C3 at the concrete standard environment: the returned world
coordinate is the spec back-projection of the winning voxel (2,2,2) through
the identity transform. -/
theorem apply_afid_model_back_projection_witness :
    (([⟨1, 1, 1⟩, ⟨2, 2, 2⟩, ⟨3, 3, 3⟩] : List Vec3)[1]? = some ⟨2, 2, 2⟩ ∧
      idxmax (model_std.predict [[1], [2], [3]]) = .ok 1) ∧
    (apply_afid_model env_std 1 ["sub-01.nii"] ["sub-01.fcsv"] dir_std
        ([], []) 0 5 1 = .ok (spec_back_project idAffine ⟨2, 2, 2⟩) ∧
      ∀ T w, apply_affine T w = spec_back_project T w) := by
  refine ⟨⟨by simp, by norm_num [model_std, idxmax, idxmax_go]⟩, ?_⟩
  exact apply_afid_model_back_projection env_std 1 ["sub-01.nii"]
    ["sub-01.fcsv"] "sub-01.nii" "sub-01.fcsv" dir_std ([], []) 0 5 1
    idAffine [[1], [2], [3]] [⟨1, 1, 1⟩, ⟨2, 2, 2⟩, ⟨3, 3, 3⟩] model_std 1
    ⟨2, 2, 2⟩ rfl rfl rfl (by norm_num [model_std, idxmax, idxmax_go])
    (by simp)

/-- C6: end-to-end scenario — one subject, landmark 1, three candidates with
scores 0.1, 0.9, 0.4 at voxels (1,1,1), (2,2,2), (3,3,3) under the identity
affine transform: the locator returns the world coordinate (2,2,2). -/
theorem apply_afid_model_end_to_end_scenario :
    apply_afid_model env_std 1 ["sub-01.nii"] ["sub-01.fcsv"] dir_std ([], [])
      0 5 1 = .ok ⟨2, 2, 2⟩ := by
  norm_num [apply_afid_model, env_std, dir_std, model_std, idAffine,
    chain_from_iterable, unpack3, getAff, getDiff, getSamples, joblib_load,
    model_fname, zfill2, idxmax, idxmax_go, pyGet, apply_affine, List.lookup,
    bind, Except.bind, pure, Except.pure]

/-- C1 (failing case): with two or more zipped (subject, fcsv) pairs,
`it.chain.from_iterable` yields at least six stream elements, so the
three-name tuple unpacking on line 30 raises `ValueError` instead of pooling
the subjects' candidates. -/
theorem apply_afid_model_multi_subject_unpack_error (env : Env)
    (afid_num : Nat) (subject_paths fcsv_paths : List String)
    (model_dir : List (String × RFModel)) (offs : FeatureOffsets)
    (padding sampling_rate size : Nat)
    (h : 2 ≤ (subject_paths.zip fcsv_paths).length) :
    apply_afid_model env afid_num subject_paths fcsv_paths model_dir offs
        padding sampling_rate size =
      .error (.valueError "too many values to unpack (expected 3)") := by
  obtain ⟨p, q, ps, hps⟩ :
      ∃ p q ps, subject_paths.zip fcsv_paths = p :: q :: ps := by
    cases hz : subject_paths.zip fcsv_paths with
    | nil => rw [hz] at h; simp at h
    | cons p rest =>
      cases rest with
      | nil => rw [hz] at h; simp at h
      | cons q ps => exact ⟨p, q, ps, rfl⟩
  unfold apply_afid_model
  rw [hps]
  simp only [List.map_cons, chain_from_iterable, List.flatMap_cons,
    List.cons_append, List.nil_append, unpack3_cons4]
  rfl

/-- Witness for C1's failing case: two concrete subjects make
`apply_afid_model` raise the unpacking `ValueError`. -/
theorem apply_afid_model_multi_subject_unpack_error_witness :
    2 ≤ ((["sub-01.nii", "sub-02.nii"].zip
        ["sub-01.fcsv", "sub-02.fcsv"]).length) ∧
    apply_afid_model env_std 1 ["sub-01.nii", "sub-02.nii"]
        ["sub-01.fcsv", "sub-02.fcsv"] dir_std ([], []) 0 5 1 =
      .error (.valueError "too many values to unpack (expected 3)") :=
  ⟨by simp, apply_afid_model_multi_subject_unpack_error env_std 1 _ _
    dir_std ([], []) 0 5 1 (by simp)⟩

/-- C7 (counterexample): on an empty subject list the code raises the
generic unpacking `ValueError`, not an `EmptyCandidateSetError` (no such
error class exists in the source). -/
theorem apply_afid_model_empty_subjects_cex :
    apply_afid_model env_std 1 [] [] dir_std ([], []) 0 5 1 =
      .error (.valueError "not enough values to unpack (expected 3, got 0)") ∧
    apply_afid_model env_std 1 [] [] dir_std ([], []) 0 5 1 ≠
      .error PyErr.emptyCandidateSetError := by
  constructor
  · rfl
  · intro h
    rw [show apply_afid_model env_std 1 [] [] dir_std ([], []) 0 5 1 =
      .error (.valueError "not enough values to unpack (expected 3, got 0)")
      from rfl] at h
    simp at h

/-- C7 (amended): for every environment and landmark, an empty subject list
makes `apply_afid_model` fail with the Python `ValueError` raised by the
tuple unpacking of an empty stream. -/
theorem apply_afid_model_empty_subjects_value_error (env : Env)
    (afid_num : Nat) (model_dir : List (String × RFModel))
    (offs : FeatureOffsets) (padding sampling_rate size : Nat) :
    apply_afid_model env afid_num [] [] model_dir offs padding sampling_rate
        size =
      .error (.valueError "not enough values to unpack (expected 3, got 0)") :=
  rfl

/-- C8 (counterexample): a one-element subject list with a two-element fcsv
list is processed without any error — `zip` silently drops the extra fcsv
path and the locator returns a coordinate, instead of raising the spec's
`MismatchedInputLengthError`. -/
theorem apply_afid_model_mismatched_lengths_cex :
    apply_afid_model env_std 1 ["sub-01.nii"]
        ["sub-01.fcsv", "sub-02.fcsv"] dir_std ([], []) 0 5 1 =
      .ok ⟨2, 2, 2⟩ ∧
    apply_afid_model env_std 1 ["sub-01.nii"]
        ["sub-01.fcsv", "sub-02.fcsv"] dir_std ([], []) 0 5 1 ≠
      .error PyErr.mismatchedInputLengthError := by
  have h1 : apply_afid_model env_std 1 ["sub-01.nii"]
      ["sub-01.fcsv", "sub-02.fcsv"] dir_std ([], []) 0 5 1 =
        .ok ⟨2, 2, 2⟩ := by
    norm_num [apply_afid_model, env_std, dir_std, model_std, idAffine,
      chain_from_iterable, unpack3, getAff, getDiff, getSamples, joblib_load,
      model_fname, zfill2, idxmax, idxmax_go, pyGet, apply_affine,
      List.lookup, bind, Except.bind, pure, Except.pure]
  refine ⟨h1, ?_⟩
  rw [h1]
  simp

/-- C8 (amended): the two path lists are consumed only through `zip`, which
pairs them up to the shorter length; any two pairs of lists with the same
zip — in particular mismatched-length lists and their common prefix — give
identical results, and no length check is ever performed. -/
theorem apply_afid_model_zip_truncates (env : Env) (afid_num : Nat)
    (subject_paths fcsv_paths subject_paths' fcsv_paths' : List String)
    (model_dir : List (String × RFModel)) (offs : FeatureOffsets)
    (padding sampling_rate size : Nat)
    (h : subject_paths.zip fcsv_paths = subject_paths'.zip fcsv_paths') :
    apply_afid_model env afid_num subject_paths fcsv_paths model_dir offs
        padding sampling_rate size =
      apply_afid_model env afid_num subject_paths' fcsv_paths' model_dir offs
        padding sampling_rate size := by
  unfold apply_afid_model
  rw [h]

/-- Witness for C8 (amended): the mismatched pair (1 subject, 2 fcsv paths)
behaves exactly like the matched pair (1 subject, 1 fcsv path). -/
theorem apply_afid_model_zip_truncates_witness :
    (["sub-01.nii"].zip ["sub-01.fcsv", "sub-02.fcsv"] =
      ["sub-01.nii"].zip ["sub-01.fcsv"]) ∧
    apply_afid_model env_std 1 ["sub-01.nii"]
        ["sub-01.fcsv", "sub-02.fcsv"] dir_std ([], []) 0 5 1 =
      apply_afid_model env_std 1 ["sub-01.nii"] ["sub-01.fcsv"] dir_std
        ([], []) 0 5 1 :=
  ⟨by simp, apply_afid_model_zip_truncates env_std 1 _ _ _ _ dir_std
    ([], []) 0 5 1 (by simp)⟩

/-- C9 (counterexample): with an empty model directory the locator fails
with the generic Python `FileNotFoundError` from `joblib.load`, not with a
`ModelNotFoundError` (no such error class exists in the source). -/
theorem apply_afid_model_missing_model_cex :
    apply_afid_model env_std 1 ["sub-01.nii"] ["sub-01.fcsv"] [] ([], [])
        0 5 1 =
      .error (.fileNotFoundError
        "afid-01_desc-rf_sampleRate-iso5vox_model.joblib") ∧
    apply_afid_model env_std 1 ["sub-01.nii"] ["sub-01.fcsv"] [] ([], [])
        0 5 1 ≠ .error PyErr.modelNotFoundError := by
  constructor
  · rfl
  · intro h
    rw [show apply_afid_model env_std 1 ["sub-01.nii"] ["sub-01.fcsv"] []
        ([], []) 0 5 1 =
      .error (.fileNotFoundError
        "afid-01_desc-rf_sampleRate-iso5vox_model.joblib") from rfl] at h
    simp at h

/-- C9 (amended): whenever the expected model filename is absent from the
model directory (and one zipped pair reaches the load), `apply_afid_model`
fails with the generic `FileNotFoundError` carrying that filename. -/
theorem apply_afid_model_missing_model_file_not_found (env : Env)
    (afid_num : Nat) (subject_paths fcsv_paths : List String)
    (model_dir : List (String × RFModel)) (offs : FeatureOffsets)
    (padding sampling_rate size : Nat)
    (hzip : ∃ s f, subject_paths.zip fcsv_paths = [(s, f)])
    (hnone : model_dir.lookup (model_fname afid_num sampling_rate) = none) :
    apply_afid_model env afid_num subject_paths fcsv_paths model_dir offs
        padding sampling_rate size =
      .error (.fileNotFoundError (model_fname afid_num sampling_rate)) :=
  apply_afid_model_lookup_none env afid_num subject_paths fcsv_paths
    model_dir offs padding sampling_rate size hzip hnone

/-- Witness for C9 (amended) at landmark 2, sampling-rate argument 7: the
missing file `afid-02_desc-rf_sampleRate-iso7vox_model.joblib` surfaces as a
`FileNotFoundError`. -/
theorem apply_afid_model_missing_model_file_not_found_witness :
    ((∃ s f, ["sub-01.nii"].zip ["sub-01.fcsv"] = [(s, f)]) ∧
      dir_std.lookup (model_fname 2 7) = none) ∧
    apply_afid_model env_std 2 ["sub-01.nii"] ["sub-01.fcsv"] dir_std
        ([], []) 0 7 1 =
      .error (.fileNotFoundError (model_fname 2 7)) :=
  ⟨⟨⟨"sub-01.nii", "sub-01.fcsv", rfl⟩, rfl⟩,
    apply_afid_model_missing_model_file_not_found env_std 2 _ _ dir_std
      ([], []) 0 7 1 ⟨"sub-01.nii", "sub-01.fcsv", rfl⟩ rfl⟩

/-- Reduction of the `Except` bind on a success value. -/
theorem pyBind_ok {α β : Type} (a : α) (f : α → Except PyErr β) :
    (Except.ok a >>= f) = f a := rfl

/-- Reduction of the `Except` bind on an error value. -/
theorem pyBind_error {α β : Type} (e : PyErr) (f : α → Except PyErr β) :
    ((Except.error e : Except PyErr α) >>= f) = .error e := rfl

/-- C4 (failing case): the model filename used by `apply_all_afid_models` is
built from its `size` argument, not its `sampling_rate` argument, because
lines 82-84 pass `padding, size, sampling_rate` positionally into the
parameters `(padding, sampling_rate, size)` of `apply_afid_model`; when the
directory has no entry for `model_fname 1 size`, the run fails with a
`FileNotFoundError` naming that size-keyed file. -/
theorem apply_all_model_fname_uses_size (env : Env)
    (subject_paths fcsv_paths : List String) (feature_offsets_path : String)
    (model_dir : List (String × RFModel)) (padding size sampling_rate : Nat)
    (hzip : ∃ s f, subject_paths.zip fcsv_paths = [(s, f)])
    (hnone : model_dir.lookup (model_fname 1 size) = none) :
    apply_all_afid_models env subject_paths fcsv_paths feature_offsets_path
        model_dir padding size sampling_rate =
      .error (.fileNotFoundError (model_fname 1 size)) := by
  have hloc : apply_afid_model env 1 subject_paths fcsv_paths model_dir
      (env.np_load feature_offsets_path) padding size sampling_rate =
      .error (.fileNotFoundError (model_fname 1 size)) :=
    apply_afid_model_lookup_none env 1 subject_paths fcsv_paths model_dir
      (env.np_load feature_offsets_path) padding size sampling_rate hzip
      hnone
  simp only [apply_all_afid_models]
  rw [show List.range' 1 32 = 1 :: List.range' 2 31 from rfl]
  simp only [vstack_loop, hloc, pyBind_error]

/-- Witness for C4's failing case: with sampling rate 5 and size 1 and a
directory holding only sampling-rate-5 models, the aggregator asks for the
`iso1vox` file (keyed by size) and fails. -/
theorem apply_all_model_fname_uses_size_witness :
    ((∃ s f, ["sub-01.nii"].zip ["sub-01.fcsv"] = [(s, f)]) ∧
      dir_std.lookup (model_fname 1 1) = none ∧
      model_fname 1 1 = "afid-01_desc-rf_sampleRate-iso1vox_model.joblib") ∧
    apply_all_afid_models env_std ["sub-01.nii"] ["sub-01.fcsv"]
        "feature_offsets.npz" dir_std 0 1 5 =
      .error (.fileNotFoundError (model_fname 1 1)) :=
  ⟨⟨⟨"sub-01.nii", "sub-01.fcsv", rfl⟩, rfl, rfl⟩,
    apply_all_model_fname_uses_size env_std ["sub-01.nii"] ["sub-01.fcsv"]
      "feature_offsets.npz" dir_std 0 1 5
      ⟨"sub-01.nii", "sub-01.fcsv", rfl⟩ rfl⟩

/-- Characterisation of the vstack loop: it succeeds exactly when every
landmark call succeeds, and then the final table is the accumulator followed
by the per-landmark coordinates in order. -/
theorem vstack_loop_ok_iff (loc : Nat → Except PyErr Vec3) :
    ∀ (ns : List Nat) (acc out : List Vec3),
      vstack_loop loc acc ns = .ok out ↔
        ∃ vs, List.Forall₂ (fun n v => loc n = .ok v) ns vs ∧
          out = acc ++ vs := by
  intro ns
  induction ns with
  | nil =>
    intro acc out
    simp only [vstack_loop, List.forall₂_nil_left_iff]
    constructor
    · intro h
      exact ⟨[], rfl, by simpa using (Except.ok.inj h).symm⟩
    · rintro ⟨vs, hvs, hout⟩
      subst hvs
      simp only [List.append_nil] at hout
      rw [hout]
  | cons n ns ih =>
    intro acc out
    simp only [vstack_loop]
    cases h : loc n with
    | error e =>
      simp only [List.forall₂_cons_left_iff, h]
      constructor
      · intro habs
        exact absurd habs (by simp)
      · rintro ⟨vs, ⟨b, u', hb, _, _⟩, _⟩
        exact absurd hb (by simp)
    | ok c =>
      rw [ih]
      constructor
      · rintro ⟨vs, hall, hout⟩
        exact ⟨c :: vs, List.Forall₂.cons h hall, by
          simpa [List.append_assoc] using hout⟩
      · rintro ⟨vs, hall, hout⟩
        rcases hall with _ | ⟨hv, htail⟩
        rename_i b u'
        have hbc : b = c := by
          rw [h] at hv
          exact (Except.ok.inj hv).symm
        subst hbc
        exact ⟨u', htail, by simpa [List.append_assoc] using hout⟩

/-- C5: a successful aggregator run hands the writer exactly 32 rows, row
`i` being the `astype(int)` conversion of the locator result for landmark
`1 + i` (ascending landmark order); and if the locator fails for any
landmark in 1..32, the whole run fails and nothing is handed to the writer. -/
theorem apply_all_thirty_two_rows_all_or_nothing (env : Env)
    (subject_paths fcsv_paths : List String) (feature_offsets_path : String)
    (model_dir : List (String × RFModel)) (padding size sampling_rate : Nat) :
    (∀ out, apply_all_afid_models env subject_paths fcsv_paths
        feature_offsets_path model_dir padding size sampling_rate = .ok out →
      out.length = 32 ∧
        ∀ (i : Nat), i < 32 → ∃ v,
          apply_afid_model env (1 + i) subject_paths fcsv_paths model_dir
            (env.np_load feature_offsets_path) padding size sampling_rate =
            .ok v ∧ out[i]? = some (astype_int3 v)) ∧
    ∀ (k : Nat) (e : PyErr), 1 ≤ k → k ≤ 32 →
      apply_afid_model env k subject_paths fcsv_paths model_dir
        (env.np_load feature_offsets_path) padding size sampling_rate =
        .error e →
      ∃ e', apply_all_afid_models env subject_paths fcsv_paths
        feature_offsets_path model_dir padding size sampling_rate =
          .error e' := by
  have hmain : ∀ out, apply_all_afid_models env subject_paths fcsv_paths
      feature_offsets_path model_dir padding size sampling_rate = .ok out →
      out.length = 32 ∧
        ∀ (i : Nat), i < 32 → ∃ v,
          apply_afid_model env (1 + i) subject_paths fcsv_paths model_dir
            (env.np_load feature_offsets_path) padding size sampling_rate =
            .ok v ∧ out[i]? = some (astype_int3 v) := by
    intro out hout
    simp only [apply_all_afid_models] at hout
    cases hv : vstack_loop
        (fun afid_num => apply_afid_model env afid_num subject_paths
          fcsv_paths model_dir (env.np_load feature_offsets_path) padding
          size sampling_rate)
        [env.empty_row] (List.range' 1 32) with
    | error e =>
      rw [hv, pyBind_error] at hout
      exact Except.noConfusion hout
    | ok coords =>
      rw [hv, pyBind_ok] at hout
      have hout' : out = (coords.drop 1).map astype_int3 :=
        (Except.ok.inj hout).symm
      obtain ⟨vs, hall, hcoords⟩ := (vstack_loop_ok_iff _ _ _ _).mp hv
      have hdrop : coords.drop 1 = vs := by
        rw [hcoords]
        rfl
      have hlen32 : vs.length = 32 := by
        have hlen := hall.length_eq
        simpa [List.length_range'] using hlen.symm
      obtain ⟨hlen, hget⟩ := List.forall₂_iff_get.mp hall
      constructor
      · rw [hout', hdrop, List.length_map, hlen32]
      · intro i hi
        have hi1 : i < (List.range' 1 32).length := by
          simpa [List.length_range'] using hi
        have hi2 : i < vs.length := by omega
        have hR := hget i hi1 hi2
        have hr : (List.range' 1 32).get ⟨i, hi1⟩ = 1 + i := by
          simp [List.get_eq_getElem, List.getElem_range']
        rw [hr] at hR
        refine ⟨vs.get ⟨i, hi2⟩, hR, ?_⟩
        rw [hout', hdrop, List.getElem?_map, List.getElem?_eq_getElem hi2]
        rfl
  refine ⟨hmain, ?_⟩
  intro k e hk1 hk2 herr
  cases happly : apply_all_afid_models env subject_paths fcsv_paths
      feature_offsets_path model_dir padding size sampling_rate with
  | error e' => exact ⟨e', rfl⟩
  | ok out =>
    obtain ⟨hlen, hforall⟩ := hmain out happly
    obtain ⟨v, hv, _⟩ := hforall (k - 1) (by omega)
    rw [show 1 + (k - 1) = k by omega, herr] at hv
    exact Except.noConfusion hv

/-- Witness for C5 via the all-or-nothing direction: with an empty model
directory the locator for landmark 1 fails, and so does the whole
aggregator run. -/
theorem apply_all_thirty_two_rows_all_or_nothing_witness :
    ((1 : Nat) ≤ 1 ∧ (1 : Nat) ≤ 32 ∧
      apply_afid_model env_std 1 ["sub-01.nii"] ["sub-01.fcsv"] []
        (env_std.np_load "feature_offsets.npz") 0 5 5 =
        .error (.fileNotFoundError
          "afid-01_desc-rf_sampleRate-iso5vox_model.joblib")) ∧
    ∃ e', apply_all_afid_models env_std ["sub-01.nii"] ["sub-01.fcsv"]
        "feature_offsets.npz" [] 0 5 5 = .error e' :=
  ⟨⟨le_refl 1, by omega, rfl⟩,
    (apply_all_thirty_two_rows_all_or_nothing env_std ["sub-01.nii"]
        ["sub-01.fcsv"] "feature_offsets.npz" [] 0 5 5).2 1
      (.fileNotFoundError "afid-01_desc-rf_sampleRate-iso5vox_model.joblib")
      (le_refl 1) (by omega) rfl⟩

/-- C10: `astype(int)` truncates toward zero — it agrees with the floor on
non-negative components and with the ceiling on negative ones; in
particular a component 2.9 is written as 2 and -1.7 as -1, and a row
(2.9, 2.9, -1.7) of the coordinate table is handed to the writer
as (2, 2, -1). -/
theorem astype_int_truncates_toward_zero :
    (∀ q : ℚ, 0 ≤ q → astype_int q = ⌊q⌋) ∧
    (∀ q : ℚ, q < 0 → astype_int q = ⌈q⌉) ∧
    astype_int (29 / 10) = 2 ∧ astype_int (-17 / 10) = -1 ∧
    astype_int3 ⟨29 / 10, 29 / 10, -17 / 10⟩ = (2, 2, -1) := by
  have hpos : ∀ q : ℚ, 0 ≤ q → astype_int q = ⌊q⌋ := by
    intro q hq
    rw [astype_int, Rat.floor_def]
    exact Int.tdiv_eq_ediv (Rat.num_nonneg.mpr hq) (Int.natCast_nonneg _)
  have hneg : ∀ q : ℚ, q < 0 → astype_int q = ⌈q⌉ := by
    intro q hq
    have h1 : astype_int q = -astype_int (-q) := by
      rw [astype_int, astype_int, Rat.neg_num, Rat.neg_den, Int.neg_tdiv,
        neg_neg]
    rw [h1, hpos (-q) (by linarith), Int.floor_neg, neg_neg]
  have h29 : astype_int (29 / 10) = 2 := by
    rw [hpos (29 / 10) (by norm_num)]
    rw [Int.floor_eq_iff]
    norm_num
  have h17 : astype_int (-17 / 10) = -1 := by
    rw [hneg (-17 / 10) (by norm_num)]
    rw [Int.ceil_eq_iff]
    norm_num
  exact ⟨hpos, hneg, h29, h17, by simp [astype_int3, h29, h17]⟩

/-- Witness for C10: the truncation equalities instantiated at the concrete
components 2.9 and -1.7. -/
theorem astype_int_truncates_toward_zero_witness :
    ((0 : ℚ) ≤ 29 / 10 ∧ (-17 : ℚ) / 10 < 0) ∧
    astype_int (29 / 10) = ⌊(29 : ℚ) / 10⌋ ∧
    astype_int (-17 / 10) = ⌈(-17 : ℚ) / 10⌉ :=
  ⟨⟨by norm_num, by norm_num⟩,
    astype_int_truncates_toward_zero.1 (29 / 10) (by norm_num),
    astype_int_truncates_toward_zero.2.1 (-17 / 10) (by norm_num)⟩
